import Mathlib

/-!
Verification development for the nvfuser IR base-node fragment
(torch/csrc/jit/codegen/cuda/ir_base_nodes.cpp).

The development embeds the fragment in two complementary shapes:

1. A producer-chain unfolding (`Val`/`Expr` mutual inductives) carrying
   exactly the fields the traversals in the fragment read.  ConstCheck,
   `Val::isConstScalar`, `Val::getInt`, `Val::isZeroInt`, `Val::isOneInt`
   are defined over it.
2. A pointer-graph view (`ValGraph`) in which nodes are identified by
   numeric ids, so that pointer identity of the C++ source becomes id
   equality.  `Val::isProducerOf`, `Val::isConsumerOf`, `Val::uses`,
   `Expr::sameAs` and the constructors/clone constructors are defined
   over it.
-/

/-- Kind tag of a Val (ValType in the source headers); the fragment reads
Scalar, TensorView and the named-symbolic kind. -/
inductive ValType : Type where
  | Scalar
  | NamedScalar
  | TensorView
  | Other
  deriving DecidableEq, Repr

/-- Data-type tag of a Val (DataType in the source headers). -/
inductive DataType : Type where
  | BoolT
  | DoubleT
  | IntT
  | Null
  | Other
  deriving DecidableEq, Repr

/-- Modelled from the spec: the concrete leaf classes the ConstCheck
dispatch distinguishes (the classes Bool, Double, Int, NamedScalar live in
headers outside the fragment).  A literal carries an optional value; its
is-constant flag is value presence, per the spec's "is this instance marked
constant" flag.  The Double payload is abstracted to presence only. -/
inductive Concrete : Type where
  | boolLit (value : Option Bool)
  | doubleLit (hasValue : Bool)
  | intLit (value : Option Int)
  | namedScalar (sym : String)
  | nonScalarNode
  deriving DecidableEq, Repr

mutual
/-- Producer-chain unfolding of a Val: kind tag, data-type tag, concrete
leaf payload, the two fusion-input/output flags, and at most one producing
Expr (definition_ in the source). -/
inductive Val : Type where
  | mk (vtype : ValType) (dtype : DataType) (cinfo : Concrete)
       (isFusionInput : Bool) (isFusionOutput : Bool)
       (defn : Option Expr)

/-- Producer-chain unfolding of an Expr: operation-kind tag and ordered
inputs.  Output lists are back-edges to the consuming side and are never
read by the traversals defined on this unfolding. -/
inductive Expr : Type where
  | mk (etype : Nat) (inputs : List Val)
end

def Val.vtype : Val → ValType
  | .mk vt _ _ _ _ _ => vt

def Val.dtype : Val → DataType
  | .mk _ dt _ _ _ _ => dt

def Val.cinfo : Val → Concrete
  | .mk _ _ c _ _ _ => c

def Val.defn : Val → Option Expr
  | .mk _ _ _ _ _ d => d

def Expr.inputs : Expr → List Val
  | .mk _ inps => inps

/-- Leaf dispatch of ConstCheck (the handle overloads for Bool, Double,
Int, NamedScalar in the source; kinds with no handler fall through to the
opt-out default and leave the accumulator unchanged). -/
def ccDispatch : Concrete → Bool → Bool
  | .boolLit v, acc => acc && v.isSome
  | .doubleLit h, acc => acc && h
  | .intLit v, acc => acc && v.isSome
  | .namedScalar _, acc => acc && false
  | .nonScalarNode, acc => acc

mutual
/-- ConstCheck handle(const Val*): recurse into the definition when there
is one, otherwise dispatch on the concrete kind. -/
def ccHandleVal : Val → Bool → Bool
  | .mk _ _ c _ _ none, acc => ccDispatch c acc
  | .mk _ _ _ _ _ (some e), acc => ccHandleExpr e acc

/-- ConstCheck handle(const Expr*): visit every input in order. -/
def ccHandleExpr : Expr → Bool → Bool
  | .mk _ inps, acc => ccHandleList inps acc

/-- Sequential left-to-right visit of an input list, threading the
running accumulator exactly as the source's for-loop does. -/
def ccHandleList : List Val → Bool → Bool
  | [], acc => acc
  | v :: vs, acc => ccHandleList vs (ccHandleVal v acc)
end

/-- ConstCheck::isConst: run the walk with the accumulator initially true. -/
def ConstCheck.isConst (v : Val) : Bool :=
  ccHandleVal v true

/-- Modelled from the spec: Val::isScalar lives in a header outside the
fragment; a scalar kind is the scalar-literal kind or the named-symbolic
kind. -/
def Val.isScalar (v : Val) : Bool :=
  v.vtype == ValType.Scalar || v.vtype == ValType.NamedScalar

/-- Modelled from the spec: Val::isAnInt lives in a header outside the
fragment; it holds of scalar Vals whose data type is the integer type. -/
def Val.isAnInt (v : Val) : Bool :=
  v.isScalar && v.dtype == DataType.IntT

/-- Val::getValType, a read accessor for the kind tag. -/
def Val.getValType (v : Val) : ValType :=
  v.vtype

/-- Modelled from the spec: the value read the source performs through
as-Int-then-value; on the integer-literal concrete kind it is the stored
optional literal value. -/
def Val.asIntValue (v : Val) : Option Int :=
  match v.cinfo with
  | .intLit value => value
  | _ => none

/-- Val::isConstScalar: false for non-scalar kinds, otherwise the
ConstCheck analysis run on this Val. -/
def Val.isConstScalar (v : Val) : Bool :=
  if !v.isScalar then false
  else ConstCheck.isConst v

/-- Val::getInt: the literal integer value when the Val is a constant
scalar of integer type whose kind tag is Scalar; absent otherwise. -/
def Val.getInt (v : Val) : Option Int :=
  if v.isConstScalar && v.isAnInt then
    if v.getValType == ValType.Scalar then v.asIntValue
    else none
  else none

/-- Val::isZeroInt: getInt is present and equals 0. -/
def Val.isZeroInt (v : Val) : Bool :=
  match v.getInt with
  | some i => i == 0
  | none => false

/-- Val::isOneInt: getInt is present and equals 1. -/
def Val.isOneInt (v : Val) : Bool :=
  match v.getInt with
  | some i => i == 1
  | none => false

/-- Pointer-graph view of the Vals and Exprs of one program: nodes are
numeric ids, so the pointer identity the source compares with becomes id
equality.  Each Val id carries its owning-context id (fusion_), its
optional producing Expr id (definition_), and each Expr id its ordered
input ids. -/
structure ValGraph : Type where
  valFusion : Nat → Nat
  valDefn : Nat → Option Nat
  exprInputs : Nat → List Nat

/-- Val::isProducerOf: after the same-fusion internal assert (modelled as
the none outcome, the fatal contract violation), false when this Val has
no definition, otherwise whether other occurs by identity among the
inputs of this Val's definition. -/
def ValGraph.isProducerOf (g : ValGraph) (this other : Nat) : Option Bool :=
  if g.valFusion this = g.valFusion other then
    some (match g.valDefn this with
      | none => false
      | some d => (g.exprInputs d).any (fun inp => inp == other))
  else none

/-- Val::isConsumerOf: delegates to other.isProducerOf(this). -/
def ValGraph.isConsumerOf (g : ValGraph) (this other : Nat) : Option Bool :=
  g.isProducerOf other this

/-- Modelled from the spec: the owning context's consumer-cache protocol
(isTVUseInfoValid, isUpdatingTVUseInfo) lives in fusion.cpp outside the
fragment; it is carried as two flags. -/
structure FusionCache : Type where
  tvUseInfoValid : Bool
  updatingTVUseInfo : Bool
  deriving DecidableEq, Repr

/-- The per-Val state Val::uses reads: the kind tag and the stored
consumer list uses_. -/
structure ValUses : Type where
  vtype : ValType
  storedUses : List Nat
  deriving DecidableEq, Repr

/-- Outcome of one Val::uses call: how many times the context's
resetTvUses recomputation fired, and the returned list. -/
structure UsesOutcome : Type where
  recomputeCalls : Nat
  result : List Nat
  deriving DecidableEq, Repr

/-- Val::uses: for the TensorView kind, when the cache-validity flag is
false and the context is not mid-recomputation, fire the context's full
recomputation (resetTvUses, modelled from the spec as an arbitrary
rewrite of the stored list) before returning uses_; in every other case
return the stored list untouched. -/
def Val.uses (v : ValUses) (cache : FusionCache) (resetTvUses : List Nat → List Nat) :
    UsesOutcome :=
  if v.vtype = ValType.TensorView then
    if !cache.tvUseInfoValid && !cache.updatingTVUseInfo then
      { recomputeCalls := 1, result := resetTvUses v.storedUses }
    else { recomputeCalls := 0, result := v.storedUses }
  else { recomputeCalls := 0, result := v.storedUses }

/-- Modelled from the spec: the owning context (Fusion) at its boundary,
an id plus the registration counter registerVal/registerExpr draw unique
identities from. -/
structure Fusion : Type where
  fid : Nat
  nextName : Nat
  deriving DecidableEq, Repr

/-- Modelled from the spec: registerVal assigns and returns a unique
identity. -/
def Fusion.registerVal (f : Fusion) : Nat × Fusion :=
  (f.nextName, { f with nextName := f.nextName + 1 })

/-- Fields a freshly constructed Val holds: kind, data type, owning
context, and the identity when self-registration was requested. -/
structure ValCtorResult : Type where
  vtype : ValType
  dtype : DataType
  fusion : Nat
  name : Option Nat
  deriving DecidableEq, Repr

/-- Fields a freshly constructed Expr holds (Exprs never self-register). -/
structure ExprCtorResult : Type where
  etype : Nat
  fusion : Nat
  deriving DecidableEq, Repr

/-- Val::Val(ValType, DataType, bool): reads the active fusion
(FusionGuard::getCurFusion, modelled from the spec as an Option
parameter); with no active fusion the TORCH_CHECK fires, otherwise the
node takes the fusion as owner and self-registers when asked. -/
def Val.construct (curFusion : Option Fusion) (vt : ValType) (dt : DataType)
    (registerVal : Bool) : Except String ValCtorResult :=
  match curFusion with
  | none => .error "No active fusion group found when creating a Val."
  | some f =>
      .ok { vtype := vt, dtype := dt, fusion := f.fid,
            name := if registerVal then some (f.registerVal).1 else none }

/-- Expr::Expr(ExprType): reads the active fusion the same way; with no
active fusion the TORCH_CHECK fires; no self-registration. -/
def Expr.construct (curFusion : Option Fusion) (et : Nat) :
    Except String ExprCtorResult :=
  match curFusion with
  | none => .error "No active fusion group found when creating an Expr."
  | some f => .ok { etype := et, fusion := f.fid }

/-- The Statement base subobject: assigned identity (name_) and owning
context (fusion_). -/
structure StmtData : Type where
  name : Option Nat
  fusion : Nat
  deriving DecidableEq, Repr

/-- The IrCloner state the fragment touches: the context being cloned
into (its fusion() accessor) and the identity map registerClone appends
to (modelled from the spec: registerClone records the (source, new)
pair). -/
structure IrClonerState : Type where
  fusion : Nat
  clonesMap : List (Nat × Nat)
  deriving DecidableEq, Repr

/-- Statement::Statement(const Statement*, IrCloner*): copies name_ from
the source, takes fusion_ from the cloner, and registers the
(source, new) pair in the cloner's map. -/
def Statement.cloneFrom (src : StmtData) (cloner : IrClonerState)
    (srcId newId : Nat) : StmtData × IrClonerState :=
  ({ name := src.name, fusion := cloner.fusion },
   { cloner with clonesMap := (srcId, newId) :: cloner.clonesMap })

/-- The full field set of a Val node in the pointer-graph view, as the
clone constructor sees it. -/
structure ValData : Type where
  name : Option Nat
  fusion : Nat
  vtype : ValType
  dtype : DataType
  isFusionInput : Bool
  isFusionOutput : Bool
  defn : Option Nat
  usesList : List Nat
  deriving DecidableEq, Repr

/-- Val::Val(const Val*, IrCloner*): delegates to the Statement clone
constructor, copies vtype_, dtype_ and the two fusion-input/output flags
from the source, and leaves definition_ and uses_ at their defaults (the
fix-up pass resolves them later). -/
def Val.cloneFrom (src : ValData) (cloner : IrClonerState)
    (srcId newId : Nat) : ValData × IrClonerState :=
  let base := Statement.cloneFrom { name := src.name, fusion := src.fusion }
    cloner srcId newId
  ({ name := base.1.name, fusion := base.1.fusion,
     vtype := src.vtype, dtype := src.dtype,
     isFusionInput := src.isFusionInput, isFusionOutput := src.isFusionOutput,
     defn := none, usesList := [] },
   base.2)

/-- Pointer-graph view of Statements for Expr::sameAs: which ids are
Exprs (isA-Expr, from a header outside the fragment, modelled as a
predicate field), each Expr id's operation kind, and its ordered input
and output ids. -/
structure ExprGraph : Type where
  isExprStmt : Nat → Bool
  exprEType : Nat → Nat
  inputs : Nat → List Nat
  outputs : Nat → List Nat

/-- Expr::sameAs: true on pointer identity; false when other is not an
Expr, or operation kinds differ, or input or output counts differ;
otherwise the conjunction of the per-position input comparisons.  The
per-Val structural equality valSameAs is outside the fragment and is a
parameter. -/
def ExprGraph.sameAs (g : ExprGraph) (valSameAs : Nat → Nat → Bool)
    (this other : Nat) : Bool :=
  if this == other then true
  else if !g.isExprStmt other then false
  else if !(g.exprEType this == g.exprEType other) then false
  else if !((g.inputs this).length == (g.inputs other).length) ||
          !((g.outputs this).length == (g.outputs other).length) then false
  else ((g.inputs this).zip (g.inputs other)).all
    (fun p => valSameAs p.1 p.2)

lemma ccDispatch_factor (c : Concrete) (acc : Bool) :
    ccDispatch c acc = (acc && ccDispatch c true) := by
  cases c <;> simp [ccDispatch, Bool.and_assoc]

mutual
lemma ccHandleVal_factor (v : Val) (acc : Bool) :
    ccHandleVal v acc = (acc && ccHandleVal v true) := by
  match v with
  | .mk vt dt c fi fo none =>
      exact ccDispatch_factor c acc
  | .mk vt dt c fi fo (some e) =>
      exact ccHandleExpr_factor e acc

lemma ccHandleExpr_factor (e : Expr) (acc : Bool) :
    ccHandleExpr e acc = (acc && ccHandleExpr e true) := by
  match e with
  | .mk t inps => exact ccHandleList_factor inps acc

lemma ccHandleList_factor (l : List Val) (acc : Bool) :
    ccHandleList l acc = (acc && ccHandleList l true) := by
  match l with
  | [] => simp [ccHandleList]
  | v :: vs =>
      show ccHandleList vs (ccHandleVal v acc) =
        (acc && ccHandleList vs (ccHandleVal v true))
      rw [ccHandleList_factor vs (ccHandleVal v acc),
          ccHandleVal_factor v acc,
          ccHandleList_factor vs (ccHandleVal v true),
          Bool.and_assoc]
end

/-- Claim C3: ConstCheck walks producer chains: a Val with a producer is
handled by recursing into the producer; an operation node is handled by
visiting every input and the result is a pure conjunction (the
accumulator factors out); hence the output of an Expr whose inputs are
two constant integer-literal leaf Vals is a constant scalar. -/
theorem constCheck_producer_chain_walk :
    (∀ (vt : ValType) (dt : DataType) (c : Concrete) (fi fo : Bool)
        (e : Expr) (acc : Bool),
      ccHandleVal (Val.mk vt dt c fi fo (some e)) acc = ccHandleExpr e acc)
  ∧ (∀ (t : Nat) (inps : List Val) (acc : Bool),
      ccHandleExpr (Expr.mk t inps) acc =
        (acc && ccHandleExpr (Expr.mk t inps) true))
  ∧ (∀ (m n : Int) (t : Nat) (dt dta dtb : DataType) (c : Concrete)
        (fi fo fa1 fa2 fb1 fb2 : Bool),
      (Val.mk ValType.Scalar dt c fi fo
        (some (Expr.mk t
          [Val.mk ValType.Scalar dta (Concrete.intLit (some m)) fa1 fa2 none,
           Val.mk ValType.Scalar dtb (Concrete.intLit (some n)) fb1 fb2 none]))).isConstScalar
        = true) := by
  refine ⟨fun _ _ _ _ _ _ _ => rfl, fun t inps acc => ccHandleExpr_factor _ _,
    fun _ _ _ _ _ _ _ _ _ _ _ _ _ => rfl⟩

/-- Claim C7: a Val with no producer whose kind is the named-symbolic
kind is never a constant scalar, regardless of its data type, symbol or
fusion-input/output flags. -/
theorem namedScalar_never_constScalar (dt : DataType) (sym : String)
    (fi fo : Bool) :
    (Val.mk ValType.NamedScalar dt (Concrete.namedScalar sym) fi fo
      none).isConstScalar = false := rfl

/-- Claim C9: getInt returns a value only when the Val is a constant
scalar of integer-literal kind and is absent otherwise; isZeroInt holds
iff getInt is present and equals 0, and isOneInt iff it is present and
equals 1. -/
theorem val_getInt_spec :
    (∀ v : Val, (v.getInt).isSome = true →
      v.isConstScalar = true ∧ v.isAnInt = true)
  ∧ (∀ v : Val, ¬(v.isConstScalar = true ∧ v.isAnInt = true) →
      v.getInt = none)
  ∧ (∀ v : Val, v.isZeroInt = true ↔ v.getInt = some 0)
  ∧ (∀ v : Val, v.isOneInt = true ↔ v.getInt = some 1) := by
  refine ⟨?_, ?_, ?_, ?_⟩
  · intro v h
    by_cases hc : (v.isConstScalar && v.isAnInt) = true
    · simpa [Bool.and_eq_true] using hc
    · exfalso
      unfold Val.getInt at h
      rw [if_neg hc] at h
      simp at h
  · intro v h
    unfold Val.getInt
    rw [if_neg]
    intro hc
    exact h (by simpa [Bool.and_eq_true] using hc)
  · intro v
    cases hg : v.getInt with
    | none => simp [Val.isZeroInt, hg]
    | some i => simp [Val.isZeroInt, hg]
  · intro v
    cases hg : v.getInt with
    | none => simp [Val.isOneInt, hg]
    | some i => simp [Val.isOneInt, hg]

/-- Concrete instantiation of the getInt specification: a stored
integer literal 0 satisfies isZeroInt, and a tensor-kind Val has an
absent getInt. -/
theorem val_getInt_spec_witness :
    (Val.mk ValType.Scalar DataType.IntT (Concrete.intLit (some 0)) false
      false none).isZeroInt = true
  ∧ (Val.mk ValType.TensorView DataType.IntT Concrete.nonScalarNode false
      false none).getInt = none :=
  ⟨(val_getInt_spec.2.2.1 _).mpr (by decide),
   val_getInt_spec.2.1 _ (by decide)⟩

lemma isProducerOf_some_true_iff (g : ValGraph) (a b : Nat)
    (h : g.valFusion a = g.valFusion b) :
    g.isProducerOf a b = some true ↔
      ∃ d, g.valDefn a = some d ∧ b ∈ g.exprInputs d := by
  unfold ValGraph.isProducerOf
  rw [if_pos h]
  cases hd : g.valDefn a with
  | none => simp
  | some d => simp [List.any_eq_true, beq_iff_eq]

lemma isProducerOf_none_iff (g : ValGraph) (a b : Nat)
    (h : g.valFusion a ≠ g.valFusion b) :
    g.isProducerOf a b = none := by
  unfold ValGraph.isProducerOf
  rw [if_neg h]

/-- Concrete pointer graph: val 0 is produced by expr 0, whose only
input is val 1; val 1 has no producer; every node lives in fusion 0. -/
def gC1 : ValGraph where
  valFusion := fun _ => 0
  valDefn := fun v => if v = 0 then some 0 else none
  exprInputs := fun _ => [1]

/-- Claim C1 counterexample: in gC1, val 0 reports isProducerOf of val 1
even though val 1 has no producer at all, so isProducerOf(a, b) is not
governed by the producer of b (it consults the producer of a). -/
theorem isProducerOf_claim_cex :
    gC1.isProducerOf 0 1 = some true
  ∧ ¬∃ d, gC1.valDefn 1 = some d ∧ (0 : Nat) ∈ gC1.exprInputs d := by
  refine ⟨rfl, ?_⟩
  rintro ⟨d, hd, _⟩
  simp [gC1] at hd

/-- Claim C1 amended: for Vals a and b owned by the same context,
a.isProducerOf(b) is true iff the producer of a exists and lists b among
that producer's inputs by identity; when the two Vals do not share the
same owning context the call is a fatal contract violation (modelled as
the none outcome). -/
theorem isProducerOf_amended (g : ValGraph) (a b : Nat) :
    (g.valFusion a = g.valFusion b →
      (g.isProducerOf a b = some true ↔
        ∃ d, g.valDefn a = some d ∧ b ∈ g.exprInputs d))
  ∧ (g.valFusion a ≠ g.valFusion b → g.isProducerOf a b = none) :=
  ⟨fun h => isProducerOf_some_true_iff g a b h,
   fun h => isProducerOf_none_iff g a b h⟩

/-- Concrete instantiation of the amended claim in gC1. -/
theorem isProducerOf_amended_witness : gC1.isProducerOf 0 1 = some true :=
  ((isProducerOf_amended gC1 0 1).1 rfl).mpr ⟨0, rfl, by decide⟩

/-- Concrete pointer graph for the consumer direction: val 0 is produced
by expr 0, whose only input is val 1; all nodes in fusion 0. -/
def gC10 : ValGraph where
  valFusion := fun _ => 0
  valDefn := fun v => if v = 0 then some 0 else none
  exprInputs := fun _ => [1]

/-- Claim C10: isConsumerOf(a, b) delegates to b.isProducerOf(a), so
under the code's isProducerOf it is true iff b has a producer and a
occurs by identity among that producer's inputs. -/
theorem isConsumerOf_flips_isProducerOf (g : ValGraph) (a b : Nat) :
    g.isConsumerOf a b = g.isProducerOf b a
  ∧ (g.valFusion a = g.valFusion b →
      (g.isConsumerOf a b = some true ↔
        ∃ d, g.valDefn b = some d ∧ a ∈ g.exprInputs d)) :=
  ⟨rfl, fun h => isProducerOf_some_true_iff g b a h.symm⟩

/-- Concrete instantiation of the consumer/producer flip in gC10: val 1
is a consumer of val 0 because 1 feeds the expr producing 0. -/
theorem isConsumerOf_flips_isProducerOf_witness :
    gC10.isConsumerOf 1 0 = some true :=
  ((isConsumerOf_flips_isProducerOf gC10 1 0).2 rfl).mpr ⟨0, rfl, by decide⟩

/-- Claim C4: Val::uses fires the context's consumer-list recomputation
exactly when the Val's kind is TensorView, the cache-validity flag is
false and the context is not mid-recomputation; for every other kind the
stored list comes back untouched with no recomputation, and whenever no
recomputation fires the stored list is returned. -/
theorem val_uses_recompute_spec (v : ValUses) (cache : FusionCache)
    (reset : List Nat → List Nat) :
    ((Val.uses v cache reset).recomputeCalls = 1 ↔
      (v.vtype = ValType.TensorView ∧ cache.tvUseInfoValid = false ∧
        cache.updatingTVUseInfo = false))
  ∧ (v.vtype ≠ ValType.TensorView →
      Val.uses v cache reset = { recomputeCalls := 0, result := v.storedUses })
  ∧ ((Val.uses v cache reset).recomputeCalls = 0 →
      (Val.uses v cache reset).result = v.storedUses) := by
  obtain ⟨vt, su⟩ := v
  obtain ⟨cv, cu⟩ := cache
  cases vt <;> cases cv <;> cases cu <;> simp [Val.uses]

/-- Concrete instantiation of the uses specification: a TensorView Val
with an invalid, not-recomputing cache fires exactly one recompute. -/
theorem val_uses_recompute_spec_witness :
    (Val.uses (ValUses.mk ValType.TensorView []) (FusionCache.mk false false)
      (fun l => l)).recomputeCalls = 1 :=
  (val_uses_recompute_spec (ValUses.mk ValType.TensorView [])
    (FusionCache.mk false false) (fun l => l)).1.mpr ⟨rfl, rfl, rfl⟩

/-- Claim C5: constructing a Val or an Expr with no active fusion fails
with the contract-violation error, and every successful construction
records the active fusion as owner (never a node with no owner). -/
theorem construct_without_fusion_fails :
    (∀ (vt : ValType) (dt : DataType) (reg : Bool),
      Val.construct none vt dt reg =
        Except.error "No active fusion group found when creating a Val.")
  ∧ (∀ et : Nat, Expr.construct none et =
      Except.error "No active fusion group found when creating an Expr.")
  ∧ (∀ (cur : Option Fusion) (vt : ValType) (dt : DataType) (reg : Bool)
        (r : ValCtorResult), Val.construct cur vt dt reg = Except.ok r →
      ∃ f, cur = some f ∧ r.fusion = f.fid) := by
  refine ⟨fun _ _ _ => rfl, fun _ => rfl, ?_⟩
  intro cur vt dt reg r h
  cases cur with
  | none => simp [Val.construct] at h
  | some f =>
      refine ⟨f, rfl, ?_⟩
      simp only [Val.construct, Except.ok.injEq] at h
      rw [← h]

/-- Concrete instantiation of the constructor specification: a Val built
while fusion 7 is active is owned by fusion 7. -/
theorem construct_without_fusion_fails_witness :
    ∃ f, (some (Fusion.mk 7 0) : Option Fusion) = some f ∧
      (ValCtorResult.mk ValType.Scalar DataType.IntT 7 (some 0)).fusion = f.fid :=
  construct_without_fusion_fails.2.2 (some (Fusion.mk 7 0)) ValType.Scalar
    DataType.IntT true (ValCtorResult.mk ValType.Scalar DataType.IntT 7 (some 0))
    rfl

/-- Concrete source statement owned by fusion 0. -/
def srcC2 : StmtData := { name := some 5, fusion := 0 }

/-- Concrete cloner targeting fusion 1 with an empty identity map. -/
def clonerC2 : IrClonerState := { fusion := 1, clonesMap := [] }

/-- Claim C2 counterexample: the Statement clone constructor does not
copy the owner from the source; cloning a statement owned by fusion 0
with a cloner whose context is fusion 1 yields owner 1. -/
theorem statement_clone_owner_cex :
    (Statement.cloneFrom srcC2 clonerC2 10 11).1.fusion ≠ srcC2.fusion := by
  decide

/-- Claim C2 amended: the Statement clone constructor copies the name
from the source, takes the owner from the cloner's context, and
registers the (source, new) pair in the cloner's identity map. -/
theorem statement_clone_amended (src : StmtData) (cloner : IrClonerState)
    (srcId newId : Nat) :
    (Statement.cloneFrom src cloner srcId newId).1.name = src.name
  ∧ (Statement.cloneFrom src cloner srcId newId).1.fusion = cloner.fusion
  ∧ (Statement.cloneFrom src cloner srcId newId).2.clonesMap
      = (srcId, newId) :: cloner.clonesMap
  ∧ (Statement.cloneFrom src cloner srcId newId).2.fusion = cloner.fusion :=
  ⟨rfl, rfl, rfl, rfl⟩

/-- Claim C8: the Val clone constructor takes the kind tag, data-type
tag and the two graph-input/output flags from the source (and the
name/owner through the Statement base), and leaves the producer and
consumer edge fields at their defaults: no edge is copied. -/
theorem val_clone_no_edges (src : ValData) (cloner : IrClonerState)
    (srcId newId : Nat) :
    (Val.cloneFrom src cloner srcId newId).1 =
      { name := src.name, fusion := cloner.fusion, vtype := src.vtype,
        dtype := src.dtype, isFusionInput := src.isFusionInput,
        isFusionOutput := src.isFusionOutput, defn := none, usesList := [] }
  ∧ (Val.cloneFrom src cloner srcId newId).1.defn = none
  ∧ (Val.cloneFrom src cloner srcId newId).1.usesList = [] :=
  ⟨rfl, rfl, rfl⟩

/-- Claim C6: Expr::sameAs is reflexive; between distinct statements it
is true exactly when the other statement is an Expr with equal operation
kind, equal input count, equal output count and pairwise structurally
equal corresponding inputs; it is false whenever input counts differ;
and it never reads output list contents (only their lengths). -/
theorem expr_sameAs_spec (g : ExprGraph) (vs : Nat → Nat → Bool) :
    (∀ e : Nat, g.sameAs vs e e = true)
  ∧ (∀ a b : Nat, a ≠ b →
      (g.sameAs vs a b = true ↔
        (g.isExprStmt b = true ∧ g.exprEType a = g.exprEType b ∧
         (g.inputs a).length = (g.inputs b).length ∧
         (g.outputs a).length = (g.outputs b).length ∧
         ∀ p ∈ (g.inputs a).zip (g.inputs b), vs p.1 p.2 = true)))
  ∧ (∀ a b : Nat, (g.inputs a).length ≠ (g.inputs b).length →
      g.sameAs vs a b = false)
  ∧ (∀ (g2 : ExprGraph) (a b : Nat),
      g2.isExprStmt = g.isExprStmt → g2.exprEType = g.exprEType →
      g2.inputs = g.inputs →
      (∀ x, (g2.outputs x).length = (g.outputs x).length) →
      g2.sameAs vs a b = g.sameAs vs a b) := by
  refine ⟨?_, ?_, ?_, ?_⟩
  · intro e
    simp [ExprGraph.sameAs]
  · intro a b h
    by_cases hb : g.isExprStmt b = true
    · by_cases ht : g.exprEType a = g.exprEType b
      · by_cases hi : (g.inputs a).length = (g.inputs b).length
        · by_cases ho : (g.outputs a).length = (g.outputs b).length
          · simp [ExprGraph.sameAs, beq_iff_eq, h, hb, ht, hi, ho,
              List.all_eq_true]
          · simp [ExprGraph.sameAs, beq_iff_eq, h, hb, ht, hi, ho]
        · simp [ExprGraph.sameAs, beq_iff_eq, h, hb, ht, hi]
      · simp [ExprGraph.sameAs, beq_iff_eq, h, hb, ht]
    · simp [ExprGraph.sameAs, beq_iff_eq, h, hb]
  · intro a b hlen
    have hab : a ≠ b := fun he => hlen (congrArg (fun x => (g.inputs x).length) he)
    simp [ExprGraph.sameAs, beq_iff_eq, hab, hlen]
  · intro g2 a b h1 h2 h3 h4
    simp only [ExprGraph.sameAs, h1, h2, h3, h4]

/-- Concrete statement graph for the sameAs specification: ids 0 and 1
are Exprs of the same kind with identical input lists and outputs of
equal length but different contents. -/
def gC6 : ExprGraph where
  isExprStmt := fun _ => true
  exprEType := fun _ => 7
  inputs := fun _ => [2, 3]
  outputs := fun s => if s = 0 then [4] else [5]

/-- Structural per-Val equality used by the sameAs witness. -/
def vsC6 : Nat → Nat → Bool := fun x y => x == y

/-- Concrete instantiation of the sameAs specification on gC6. -/
theorem expr_sameAs_spec_witness : gC6.sameAs vsC6 0 1 = true :=
  ((expr_sameAs_spec gC6 vsC6).2.1 0 1 (by decide)).mpr (by decide)
